import Mathlib

/-!
Shallow embedding of the fetch-cache-fallback engine of `src/app.py`
(Weather-app).  Payloads are opaque JSON documents stored verbatim, so they
are modelled as strings.  The on-disk cache is a map from filename to file
state; the clock (`time.time()`) is a single value `now` threaded through a
request (no time passes inside one request).  The upstream HTTP provider is
modelled as a function from the attempt counter to the result of that
attempt (a transport-level exception, or a response with a status code, an
optional Retry-After header and an optional JSON body, where a missing body
models `resp.json()` raising).  Python exceptions that escape a function are
modelled with `Except`.
-/

/-- Opaque weather document returned by the provider (stored verbatim). -/
abbrev Payload : Type := String

/-- A Python dict drawn from the keys the cache code uses: `expired`,
`timestamp`, `data`.  Each field is `none` when the key is absent; for
`expired` the Bool is the truthiness of the stored value. -/
structure CacheDict where
  expiredKey : Option Bool
  timestampKey : Option Nat
  dataKey : Option Payload
deriving DecidableEq, Repr

/-- Truthiness of the dict (a Python dict is falsy iff empty). -/
def CacheDict.truthy (d : CacheDict) : Bool :=
  d.expiredKey.isSome || d.timestampKey.isSome || d.dataKey.isSome

/-- Truthiness of `d.get("expired")` (missing key gives `None`, falsy). -/
def CacheDict.expiredTrue (d : CacheDict) : Bool :=
  d.expiredKey.getD false

/-- State of one cache file on disk: missing, raising on open/parse
(I/O error or malformed JSON), or a parsed JSON dict. -/
inductive FileState where
  | absent
  | corrupt
  | record (d : CacheDict)
deriving DecidableEq, Repr

/-- The on-disk cache directory: file contents per filename, plus which
paths fail on write (write failures are swallowed by `write_cache`). -/
structure Store where
  files : String → FileState
  writeFails : String → Bool

/-- Result of one HTTP attempt: a `requests.RequestException`, or a
response carrying the status code, the optional `Retry-After` header and
the optional parsed JSON body (`none` models `resp.json()` raising). -/
inductive AttemptResult where
  | exn
  | resp (status : Nat) (retryAfter : Option String) (body : Option Payload)
deriving DecidableEq, Repr

/-- The response object as used by the handler after `fetch_weather_from_api`. -/
structure Response where
  status : Nat
  retryAfter : Option String
  body : Option Payload
deriving DecidableEq, Repr

/-- Python exceptions that can escape the modelled functions. -/
inductive PyError where
  | runtimeError (msg : String)
  | valueError (msg : String)
deriving DecidableEq, Repr

/-- Observable events of one request: a `slugify` call, a cache read, a
cache write, one HTTP GET (indexed by the attempt counter), one
`time.sleep` with its duration in seconds. -/
inductive Ev where
  | slug (text : String)
  | cacheReadEv (city : String)
  | cacheWriteEv (city : String)
  | httpGet (attempt : Nat)
  | sleepEv (w : Int)
deriving DecidableEq, Repr

/-- The HTTP-level result the handler produces: a rendered page
(weather payload, city, provenance source string, cached_time, optional
warning), or a flash-message redirect to the index. -/
inductive Render where
  | page (weather : Option Payload) (city : String) (source : String)
      (cachedTime : Nat) (warning : Option String)
  | redirect (flashMsg : String) (flashCat : String)
deriving DecidableEq, Repr

/-- Configuration and ambient state of one request: the md5 hex digest
function used by `slugify`, `API_KEY` from the environment (`none` when
unset), `CACHE_TTL`, `MAX_RETRIES`, `BACKOFF_BASE`, and the current clock
value `now` (each request is modelled at one instant). -/
structure Config where
  md5 : String → String
  apiKey : Option String
  cacheTTL : Int
  maxRetries : Nat
  backoffBase : Nat
  now : Nat

/-- Truthiness of `API_KEY` (`if not API_KEY` in the source: `None` and the
empty string are falsy). -/
def pyKeyTruthy : Option String → Bool
  | none => false
  | some s => s ≠ ""

/-- Python `str.strip()`: drop whitespace from both ends. -/
def pyStrip (s : String) : String :=
  ⟨((s.data.dropWhile Char.isWhitespace).reverse.dropWhile Char.isWhitespace).reverse⟩

/-- Python `str.lower()`. -/
def pyLower (s : String) : String := ⟨s.data.map Char.toLower⟩

/-- Python `str.replace(" ", "_")` (single-character pattern, so a map). -/
def pyReplaceSpace (s : String) : String :=
  ⟨s.data.map (fun c => if c = ' ' then '_' else c)⟩

/-- Value of a nonempty digit run, most significant first. -/
def digitsToNat (l : List Char) : Nat := l.foldl (fun acc c => acc * 10 + (c.toNat - 48)) 0

/-- Python `int(s)` on a string: strips whitespace, optional sign, then a
nonempty digit run; yields `none` when a `ValueError` would be raised. -/
def pyIntOfString (s : String) : Option Int :=
  match (pyStrip s).data with
  | [] => none
  | c :: rest =>
      let sd : Int × List Char :=
        if c = '-' then (-1, rest) else if c = '+' then (1, rest) else (1, c :: rest)
      if sd.2 = [] then none
      else if sd.2.all (fun ch => ch.isDigit) then some (sd.1 * (digitsToNat sd.2 : Int))
      else none

/-- `slugify(text)` from app.py line 54: strip, lowercase, md5 hex digest
of the normalized text, then the normalized text with spaces replaced by
underscores, an underscore, and the digest. -/
def slugify (cfg : Config) (text : String) : String :=
  let t := pyLower (pyStrip text)
  pyReplaceSpace t ++ "_" ++ cfg.md5 t

/-- `cache_path_for(city)` from app.py line 61: the filename inside
`CACHE_DIR` (the constant directory component is dropped from the model,
the store is keyed by filename). -/
def cache_path_for (cfg : Config) (city : String) : String :=
  slugify cfg city ++ ".json"

/-- `read_cache(city)` from app.py lines 65-86.  Returns `none` when the
file is absent or anything raises while loading/parsing; returns the loaded
dict verbatim when `time.time() - ts <= CACHE_TTL` (with `ts` defaulting to
0); otherwise returns the dict annotated with an expired key set to True,
where the spread of the stored keys after the annotation lets a stored
expired key override it, per Python dict-literal semantics. -/
def read_cache (cfg : Config) (store : Store) (city : String) :
    List Ev × Option CacheDict :=
  let p := cache_path_for cfg city
  let evs := [Ev.slug city, Ev.cacheReadEv city]
  match store.files p with
  | .absent => (evs, none)
  | .corrupt => (evs, none)
  | .record d =>
      let ts := d.timestampKey.getD 0
      if (cfg.now : Int) - (ts : Int) ≤ cfg.cacheTTL then (evs, some d)
      else (evs, some { d with expiredKey := some (d.expiredKey.getD true) })

/-- `write_cache(city, payload)` from app.py lines 89-100: stores a dict
holding the current timestamp and the payload, replacing any existing
entry; any write failure is logged and swallowed (the store is returned
unchanged). -/
def write_cache (cfg : Config) (store : Store) (city : String) (payload : Payload) :
    List Ev × Store :=
  let p := cache_path_for cfg city
  let evs := [Ev.slug city, Ev.cacheWriteEv city]
  if store.writeFails p then (evs, store)
  else (evs, { store with
    files := fun q =>
      if q = p then .record ⟨none, some cfg.now, some payload⟩ else store.files q })

/-- The wait chosen by the 429 branch of app.py lines 123-134: the parsed
`Retry-After` value when the header is truthy and `int()` succeeds,
otherwise `BACKOFF_BASE * 2 ** attempt`. -/
def wait429 (cfg : Config) (attempt : Nat) (retryAfter : Option String) : Int :=
  match retryAfter with
  | none => ((cfg.backoffBase * 2 ^ attempt : Nat) : Int)
  | some s =>
      if s = "" then ((cfg.backoffBase * 2 ^ attempt : Nat) : Int)
      else
        match pyIntOfString s with
        | some n => n
        | none => ((cfg.backoffBase * 2 ^ attempt : Nat) : Int)

/-- The retry loop of `fetch_weather_from_api` (app.py lines 118-146),
structurally recursive on the remaining attempts `fuel`
(`MAX_RETRIES - attempt`).  `time.sleep` with a negative duration raises
`ValueError`, which the loop does not catch (only
`requests.RequestException` is). -/
def fetchGo (cfg : Config) (provider : Nat → AttemptResult) (attempt : Nat) :
    (fuel : Nat) → List Ev × Except PyError (Option Response)
  | 0 => ([], .ok none)
  | fuel + 1 =>
    match provider attempt with
    | .exn =>
        let w : Int := ((cfg.backoffBase * 2 ^ attempt : Nat) : Int)
        let rest := fetchGo cfg provider (attempt + 1) fuel
        (Ev.httpGet attempt :: Ev.sleepEv w :: rest.1, rest.2)
    | .resp status ra body =>
        if status = 429 then
          let w := wait429 cfg attempt ra
          if w < 0 then
            ([Ev.httpGet attempt], .error (.valueError "sleep length must be non-negative"))
          else
            let rest := fetchGo cfg provider (attempt + 1) fuel
            (Ev.httpGet attempt :: Ev.sleepEv w :: rest.1, rest.2)
        else ([Ev.httpGet attempt], .ok (some ⟨status, ra, body⟩))

/-- `fetch_weather_from_api(city)` from app.py lines 107-146: raises
`RuntimeError` when `API_KEY` is unset or empty, otherwise runs the retry
loop; returns `none` when retries are exhausted. -/
def fetch_weather_from_api (cfg : Config) (provider : Nat → AttemptResult)
    (city : String) : List Ev × Except PyError (Option Response) :=
  if pyKeyTruthy cfg.apiKey then fetchGo cfg provider 0 cfg.maxRetries
  else ([], .error (.runtimeError "API_KEY not set. Put your key in .env"))

/-- Truthiness of the `cache` variable in the handler (None is falsy, a
dict is falsy iff empty). -/
def cacheTruthy : Option CacheDict → Bool
  | none => false
  | some d => d.truthy

/-- `cache.get("data")` as used by the handler (only under a truthiness
guard, so the dict is present there). -/
def cacheData : Option CacheDict → Option Payload
  | none => none
  | some d => d.dataKey

/-- `cache.get("timestamp", time.time())` as used by the handler. -/
def cacheTs (cache : Option CacheDict) (now : Nat) : Nat :=
  match cache with
  | none => now
  | some d => d.timestampKey.getD now

/-- app.py lines 171-245: the part of the `weather` handler that runs once
`fetch_weather_from_api` has returned (either `None` on exhausted retries,
or a response object), given the cache read from step 1. -/
def weatherWithResp (cfg : Config) (store : Store) (city : String)
    (cache : Option CacheDict) (resp : Option Response) :
    List Ev × Store × Except PyError Render :=
  match resp with
  | none =>
      if cacheTruthy cache then
        ([], store, .ok (.page (cacheData cache) city "cache_expired"
          (cacheTs cache cfg.now)
          (some "API is unreachable; showing the latest cached data.")))
      else
        ([], store, .ok (.redirect
          "Service is unreachable and no cached data is available." "danger"))
  | some r =>
      if r.status = 200 then
        match r.body with
        | some payload =>
            let wr := write_cache cfg store city payload
            (wr.1, wr.2, .ok (.page (some payload) city "api" cfg.now none))
        | none =>
            ([], store, .ok (.redirect "Error processing the received data." "danger"))
      else if r.status = 401 then
        ([], store, .ok (.redirect
          "Invalid API key. Please check your configuration." "danger"))
      else if r.status = 404 then
        ([], store, .ok (.redirect
          "City not found. Please check the city name." "warning"))
      else if r.status = 429 then
        if cacheTruthy cache then
          ([], store, .ok (.page (cacheData cache) city "cache_rate_limited"
            (cacheTs cache cfg.now)
            (some "Request rate limit reached; showing cached data.")))
        else
          ([], store, .ok (.redirect
            "Rate limit reached and no cached data is available." "danger"))
      else if 500 ≤ r.status ∧ r.status < 600 then
        if cacheTruthy cache then
          ([], store, .ok (.page (cacheData cache) city "cache_server_error"
            (cacheTs cache cfg.now)
            (some "Server error; showing the latest cached data.")))
        else
          ([], store, .ok (.redirect
            "Server error occurred and no cached data is available." "danger"))
      else
        ([], store, .ok (.redirect
          ("Error fetching data: HTTP " ++ toString r.status) "danger"))

/-- The POST /weather handler, app.py lines 154-245: strip the form field,
reject blank input, serve a fresh cache hit without calling upstream,
otherwise fetch from the API (letting any exception propagate) and combine
the response with the cache state. -/
def weather (cfg : Config) (store : Store) (provider : Nat → AttemptResult)
    (formCity : String) : List Ev × Store × Except PyError Render :=
  let city := pyStrip formCity
  if city = "" then
    ([], store, .ok (.redirect "Please enter a city name." "warning"))
  else
    let rc := read_cache cfg store city
    let cache := rc.2
    if cacheTruthy cache && !((cache.map CacheDict.expiredTrue).getD false) then
      (rc.1, store, .ok (.page (cacheData cache) city "cache"
        (cacheTs cache cfg.now) none))
    else
      let fr := fetch_weather_from_api cfg provider city
      match fr.2 with
      | .error e => (rc.1 ++ fr.1, store, .error e)
      | .ok resp =>
          let res := weatherWithResp cfg store city cache resp
          (rc.1 ++ fr.1 ++ res.1, res.2.1, res.2.2)

/-! Helper lemmas and concrete fixtures used by witnesses. -/

/-- The events of a cache read are always one slugify call and one read. -/
theorem read_cache_evs (cfg : Config) (store : Store) (city : String) :
    (read_cache cfg store city).1 = [Ev.slug city, Ev.cacheReadEv city] := by
  rcases h : store.files (cache_path_for cfg city) with _ | _ | d <;>
    simp [read_cache, h] <;> split <;> rfl

/-- A fixed md5 stand-in for witnesses. -/
def md5T : String → String := fun _ => "d41d8cd9"

/-- A concrete configuration for witnesses. -/
def cfgT : Config :=
  { md5 := md5T, apiKey := some "k", cacheTTL := 1800, maxRetries := 3,
    backoffBase := 1, now := 1000 }

/-- An empty cache directory. -/
def storeEmptyT : Store := { files := fun _ => .absent, writeFails := fun _ => false }

/-- A cache directory whose every file raises on load. -/
def storeCorruptT : Store := { files := fun _ => .corrupt, writeFails := fun _ => false }

/-- A stale cache dict as returned by `read_cache` past the TTL. -/
def staleD : CacheDict := ⟨some true, some 100, some "P1"⟩

/-- A fresh cache file record. -/
def freshD : CacheDict := ⟨none, some 900, some "PF"⟩

/-- A store holding a fresh entry for the city Paris under `cfgT`. -/
def storeFreshT : Store :=
  { files := fun q => if q = cache_path_for cfgT "Paris" then .record freshD else .absent,
    writeFails := fun _ => false }

/-- A response with a given status and no header or body. -/
def respT (status : Nat) : Response := ⟨status, none, none⟩

/-- Claim C2: when the cache read returned a stale entry (hasCache true) and
the upstream outcome is a 429 response, the handler returns the
cache_rate_limited page carrying the stale payload and stored timestamp,
not a redirect and not any other fallback source string
(app.py lines 212-226). -/
theorem c2_rate_limited_serves_stale (cfg : Config) (store : Store) (city : String)
    (d : CacheDict) (r : Response)
    (htru : d.truthy = true) (_hstale : d.expiredTrue = true)
    (hst : r.status = 429) :
    weatherWithResp cfg store city (some d) (some r) =
      ([], store, .ok (.page d.dataKey city "cache_rate_limited"
        (d.timestampKey.getD cfg.now)
        (some "Request rate limit reached; showing cached data."))) := by
  simp [weatherWithResp, hst, cacheTruthy, htru, cacheData, cacheTs]

/-- Witness for C2 at city Paris with a stale entry and a 429 response. -/
theorem c2_witness :
    weatherWithResp cfgT storeEmptyT "Paris" (some staleD) (some (respT 429)) =
      ([], storeEmptyT, .ok (.page staleD.dataKey "Paris" "cache_rate_limited"
        (staleD.timestampKey.getD cfgT.now)
        (some "Request rate limit reached; showing cached data."))) :=
  c2_rate_limited_serves_stale cfgT storeEmptyT "Paris" staleD (respT 429)
    (by decide) (by decide) rfl

/-- Claim C6: with a stale cache entry present, a 401 response yields the
invalid-credentials redirect (the NoDataError outcome); the stale cached
payload is never served (app.py lines 204-207). -/
theorem c6_401_never_falls_back (cfg : Config) (store : Store) (city : String)
    (d : CacheDict) (r : Response)
    (_htru : d.truthy = true) (_hstale : d.expiredTrue = true)
    (hst : r.status = 401) :
    weatherWithResp cfg store city (some d) (some r) =
      ([], store, .ok (.redirect
        "Invalid API key. Please check your configuration." "danger")) := by
  simp [weatherWithResp, hst]

/-- Witness for C6 at city Paris with a stale entry and a 401 response. -/
theorem c6_witness :
    weatherWithResp cfgT storeEmptyT "Paris" (some staleD) (some (respT 401)) =
      ([], storeEmptyT, .ok (.redirect
        "Invalid API key. Please check your configuration." "danger")) :=
  c6_401_never_falls_back cfgT storeEmptyT "Paris" staleD (respT 401)
    (by decide) (by decide) rfl

/-- Claim C7: with a stale cache entry holding payload P1, a 503 response
yields the cache_server_error page carrying P1, and the cache store is left
unchanged, so the entry for that city still holds P1 with its original
timestamp (app.py lines 227-241; `write_cache` runs only on status 200). -/
theorem c7_server_error_frame (cfg : Config) (store : Store) (city : String)
    (d : CacheDict) (r : Response) (p1 : Payload)
    (htru : d.truthy = true) (_hstale : d.expiredTrue = true)
    (hdata : d.dataKey = some p1) (hst : r.status = 503) :
    weatherWithResp cfg store city (some d) (some r) =
      ([], store, .ok (.page (some p1) city "cache_server_error"
        (d.timestampKey.getD cfg.now)
        (some "Server error; showing the latest cached data."))) ∧
    ((weatherWithResp cfg store city (some d) (some r)).2.1).files = store.files := by
  have h1 : weatherWithResp cfg store city (some d) (some r) =
      ([], store, .ok (.page (some p1) city "cache_server_error"
        (d.timestampKey.getD cfg.now)
        (some "Server error; showing the latest cached data."))) := by
    simp [weatherWithResp, hst, cacheTruthy, htru, cacheData, hdata, cacheTs]
  exact ⟨h1, by rw [h1]⟩

/-- Witness for C7 at city Paris with a stale entry holding P1 and a 503. -/
theorem c7_witness :
    weatherWithResp cfgT storeEmptyT "Paris" (some staleD) (some (respT 503)) =
      ([], storeEmptyT, .ok (.page (some "P1") "Paris" "cache_server_error"
        (staleD.timestampKey.getD cfgT.now)
        (some "Server error; showing the latest cached data."))) ∧
    ((weatherWithResp cfgT storeEmptyT "Paris" (some staleD)
        (some (respT 503))).2.1).files = storeEmptyT.files :=
  c7_server_error_frame cfgT storeEmptyT "Paris" staleD (respT 503) "P1"
    (by decide) (by decide) rfl rfl

/-- Claim C8: when loading or parsing the persisted entry raises (I/O error
or malformed JSON, modelled as a corrupt file), `read_cache` returns `none`
and no error escapes (app.py lines 72-86, the except branch). -/
theorem c8_read_cache_fails_open (cfg : Config) (store : Store) (city : String)
    (h : store.files (cache_path_for cfg city) = .corrupt) :
    (read_cache cfg store city).2 = none := by
  simp [read_cache, h]

/-- Witness for C8 on a store whose files all raise on load. -/
theorem c8_witness :
    (read_cache cfgT storeCorruptT "Paris").2 = none :=
  c8_read_cache_fails_open cfgT storeCorruptT "Paris" rfl

/-- Claim C9: a successful `write_cache` followed immediately by
`read_cache` of the same city (same clock value, TTL nonnegative) yields
the dict holding timestamp now and data p with no expired annotation, i.e. a
Fresh result whose stored payload equals what was written
(app.py lines 65-100). -/
theorem c9_cache_round_trip (cfg : Config) (store : Store) (city : String) (p : Payload)
    (hw : store.writeFails (cache_path_for cfg city) = false)
    (ht : 0 ≤ cfg.cacheTTL) :
    (read_cache cfg (write_cache cfg store city p).2 city).2 =
      some ⟨none, some cfg.now, some p⟩ ∧
    cacheTruthy (read_cache cfg (write_cache cfg store city p).2 city).2 = true ∧
    cacheData (read_cache cfg (write_cache cfg store city p).2 city).2 = some p := by
  have hfile : (write_cache cfg store city p).2.files (cache_path_for cfg city) =
      .record ⟨none, some cfg.now, some p⟩ := by
    simp [write_cache, hw]
  have h1 : (read_cache cfg (write_cache cfg store city p).2 city).2 =
      some ⟨none, some cfg.now, some p⟩ := by
    simp [read_cache, hfile, ht]
  exact ⟨h1, by rw [h1]; rfl, by rw [h1]; rfl⟩

/-- Witness for C9 writing payload PX for Paris into an empty store. -/
theorem c9_witness :
    (read_cache cfgT (write_cache cfgT storeEmptyT "Paris" "PX").2 "Paris").2 =
      some ⟨none, some cfgT.now, some "PX"⟩ ∧
    cacheTruthy (read_cache cfgT (write_cache cfgT storeEmptyT "Paris" "PX").2 "Paris").2 = true ∧
    cacheData (read_cache cfgT (write_cache cfgT storeEmptyT "Paris" "PX").2 "Paris").2 = some "PX" :=
  c9_cache_round_trip cfgT storeEmptyT "Paris" "PX" rfl (by decide)

/-- Claim C10: a form city that is empty after stripping is rejected with
the warning redirect before the engine runs: the event trace is empty, so
the cache is never read, no HTTP call is made and slugify is never invoked,
and the store is unchanged (app.py lines 154-159). -/
theorem c10_blank_city_rejected (cfg : Config) (store : Store)
    (provider : Nat → AttemptResult) (formCity : String)
    (h : pyStrip formCity = "") :
    weather cfg store provider formCity =
      ([], store, .ok (.redirect "Please enter a city name." "warning")) ∧
    (∀ s, Ev.slug s ∉ (weather cfg store provider formCity).1) ∧
    (∀ c, Ev.cacheReadEv c ∉ (weather cfg store provider formCity).1) ∧
    (∀ i, Ev.httpGet i ∉ (weather cfg store provider formCity).1) := by
  simp [weather, h]

/-- Witness for C10 on a whitespace-only form field. -/
theorem c10_witness :
    weather cfgT storeEmptyT (fun _ => .exn) "   " =
      ([], storeEmptyT, .ok (.redirect "Please enter a city name." "warning")) :=
  (c10_blank_city_rejected cfgT storeEmptyT (fun _ => .exn) "   " (by decide)).1

/-- Claim C3: when the cache read returns a fresh entry (truthy dict, no
expired annotation), the handler serves the cache page carrying that dict
payload and stored timestamp, and the event trace contains no HTTP GET, so
no upstream call is made (app.py lines 161-167). -/
theorem c3_fresh_cache_short_circuits (cfg : Config) (store : Store)
    (provider : Nat → AttemptResult) (formCity : String) (d : CacheDict)
    (hne : ¬ pyStrip formCity = "")
    (hread : (read_cache cfg store (pyStrip formCity)).2 = some d)
    (htru : d.truthy = true)
    (hfresh : d.expiredTrue = false) :
    weather cfg store provider formCity =
      ([Ev.slug (pyStrip formCity), Ev.cacheReadEv (pyStrip formCity)], store,
        .ok (.page d.dataKey (pyStrip formCity) "cache"
          (d.timestampKey.getD cfg.now) none)) ∧
    ∀ i, Ev.httpGet i ∉ (weather cfg store provider formCity).1 := by
  have hevs := read_cache_evs cfg store (pyStrip formCity)
  have hmain : weather cfg store provider formCity =
      ([Ev.slug (pyStrip formCity), Ev.cacheReadEv (pyStrip formCity)], store,
        .ok (.page d.dataKey (pyStrip formCity) "cache"
          (d.timestampKey.getD cfg.now) none)) := by
    simp only [weather]
    rw [if_neg hne, hread, hevs]
    simp [cacheTruthy, htru, hfresh, cacheData, cacheTs]
  refine ⟨hmain, ?_⟩
  intro i
  rw [hmain]
  simp

/-- Witness for C3: Paris with a fresh cached entry is served from cache. -/
theorem c3_witness :
    weather cfgT storeFreshT (fun _ => .exn) "Paris" =
      ([Ev.slug (pyStrip "Paris"), Ev.cacheReadEv (pyStrip "Paris")], storeFreshT,
        .ok (.page freshD.dataKey (pyStrip "Paris") "cache"
          (freshD.timestampKey.getD cfgT.now) none)) :=
  (c3_fresh_cache_short_circuits cfgT storeFreshT (fun _ => .exn) "Paris" freshD
    (by decide) (by decide) (by decide) (by decide)).1

/-- Claim C4: with maxRetries 3, an always-failing transport produces
exactly three HTTP attempts, a sleep of backoffBase times 2 to the attempt
after each attempt 0, 1, 2, and the Unreachable result `none`
(app.py lines 118-146). -/
theorem c4_retry_bound (cfg : Config) (provider : Nat → AttemptResult) (city : String)
    (hkey : pyKeyTruthy cfg.apiKey = true)
    (hmr : cfg.maxRetries = 3)
    (hfail : ∀ i, provider i = .exn) :
    fetch_weather_from_api cfg provider city =
      ([Ev.httpGet 0, Ev.sleepEv ((cfg.backoffBase * 2 ^ 0 : Nat) : Int),
        Ev.httpGet 1, Ev.sleepEv ((cfg.backoffBase * 2 ^ 1 : Nat) : Int),
        Ev.httpGet 2, Ev.sleepEv ((cfg.backoffBase * 2 ^ 2 : Nat) : Int)],
       .ok none) := by
  have hp : provider = fun _ => AttemptResult.exn := funext hfail
  subst hp
  unfold fetch_weather_from_api
  rw [if_pos hkey, hmr]
  rfl

/-- Witness for C4 on an always-failing transport with backoffBase 1. -/
theorem c4_witness :
    fetch_weather_from_api cfgT (fun _ => .exn) "Paris" =
      ([Ev.httpGet 0, Ev.sleepEv ((cfgT.backoffBase * 2 ^ 0 : Nat) : Int),
        Ev.httpGet 1, Ev.sleepEv ((cfgT.backoffBase * 2 ^ 1 : Nat) : Int),
        Ev.httpGet 2, Ev.sleepEv ((cfgT.backoffBase * 2 ^ 2 : Nat) : Int)],
       .ok none) :=
  c4_retry_bound cfgT (fun _ => .exn) "Paris" (by decide) rfl (fun _ => rfl)

/-- A provider that always answers 429 with Retry-After 0. -/
def provRA0 : Nat → AttemptResult := fun _ => .resp 429 (some "0") none

/-- Counterexample to claim C5 as stated: Retry-After "0" is present and
parseable as an integer but not as a positive one, so the claim requires a
sleep of backoffBase times 2 to the attempt (1 second here); the code
instead sleeps the parsed value 0 on every attempt. -/
theorem c5_counterexample :
    fetch_weather_from_api cfgT provRA0 "Paris" =
      ([Ev.httpGet 0, Ev.sleepEv 0, Ev.httpGet 1, Ev.sleepEv 0,
        Ev.httpGet 2, Ev.sleepEv 0], .ok none) ∧
    (0 : Int) ≠ ((cfgT.backoffBase * 2 ^ 0 : Nat) : Int) := by
  refine ⟨rfl, by decide⟩

/-- Claim C5 (amended): on a 429 response the loop sleeps the Retry-After
value exactly when the header is present (truthy) and parseable as an
integer, which may be zero, otherwise backoffBase times 2 to the attempt;
when that wait is nonnegative it then increments the attempt counter and
continues the retry loop (a parsed negative value instead raises
ValueError from time.sleep; app.py lines 123-136). -/
theorem c5_retry_after_sleep (cfg : Config) (provider : Nat → AttemptResult)
    (ra : Option String) (body : Option Payload) (fuel : Nat) (w : Int)
    (hw : w = match ra with
      | none => ((cfg.backoffBase * 2 ^ 0 : Nat) : Int)
      | some s =>
          if s = "" then ((cfg.backoffBase * 2 ^ 0 : Nat) : Int)
          else
            match pyIntOfString s with
            | some n => n
            | none => ((cfg.backoffBase * 2 ^ 0 : Nat) : Int))
    (hp : provider 0 = .resp 429 ra body)
    (hnn : 0 ≤ w) :
    fetchGo cfg provider 0 (fuel + 1) =
      (Ev.httpGet 0 :: Ev.sleepEv w :: (fetchGo cfg provider 1 fuel).1,
       (fetchGo cfg provider 1 fuel).2) := by
  have hw429 : wait429 cfg 0 ra = w := by
    rw [hw]
    rcases ra with _ | s <;> rfl
  simp [fetchGo, hp, hw429, not_lt.mpr hnn]

/-- A provider that always answers 429 with Retry-After 7. -/
def provRA7 : Nat → AttemptResult := fun _ => .resp 429 (some "7") none

/-- Witness for C5: Retry-After 7 makes the loop sleep 7 and continue. -/
theorem c5_witness :
    fetchGo cfgT provRA7 0 (1 + 1) =
      (Ev.httpGet 0 :: Ev.sleepEv 7 :: (fetchGo cfgT provRA7 1 1).1,
       (fetchGo cfgT provRA7 1 1).2) :=
  c5_retry_after_sleep cfgT provRA7 (some "7") none 1 7 (by decide) rfl (by decide)

/-- A configuration with the API key unset. -/
def cfgNoKeyT : Config :=
  { md5 := md5T, apiKey := none, cacheTTL := 1800, maxRetries := 3,
    backoffBase := 1, now := 1000 }

/-- Counterexample to claim C1 as stated: with a missing API key
configuration and no usable cache, the handler propagates the RuntimeError
raised by `fetch_weather_from_api` (app.py lines 109-110) instead of
returning an outcome. -/
theorem c1_counterexample :
    (weather cfgNoKeyT storeEmptyT (fun _ => .exn) "Paris").2.2 =
      .error (.runtimeError "API_KEY not set. Put your key in .env") := rfl

/-- An upstream attempt result that cannot trigger a negative sleep: any
429 response whose Retry-After parses as an integer carries a nonnegative
value. -/
def attemptOk : AttemptResult → Bool
  | .exn => true
  | .resp status ra _ =>
      if status = 429 then
        match ra with
        | none => true
        | some s =>
            if s = "" then true
            else
              match pyIntOfString s with
              | some n => decide (0 ≤ n)
              | none => true
      else true

/-- Under `attemptOk`, the 429 wait is never negative. -/
theorem wait429_nonneg (cfg : Config) (attempt : Nat) (ra : Option String)
    (body : Option Payload) (h : attemptOk (.resp 429 ra body) = true) :
    0 ≤ wait429 cfg attempt ra := by
  rcases ra with _ | s
  · exact Int.natCast_nonneg _
  · by_cases hs : s = ""
    · simp [wait429, hs]
    · rcases hpi : pyIntOfString s with _ | n
      · simp [wait429, hs, hpi]
      · have hd : decide ((0 : Int) ≤ n) = true := by
          simpa [attemptOk, hs, hpi] using h
        simp only [wait429, hs, hpi, if_neg hs]
        exact of_decide_eq_true hd

/-- Under `attemptOk` at every attempt, the retry loop never raises. -/
theorem fetchGo_no_error (cfg : Config) (provider : Nat → AttemptResult)
    (hgood : ∀ i, attemptOk (provider i) = true) :
    ∀ fuel attempt, ∃ r, (fetchGo cfg provider attempt fuel).2 = .ok r := by
  intro fuel
  induction fuel with
  | zero => exact fun attempt => ⟨none, rfl⟩
  | succ fuel ih =>
      intro attempt
      rcases hp : provider attempt with _ | ⟨status, ra, body⟩
      · obtain ⟨r, hr⟩ := ih (attempt + 1)
        exact ⟨r, by simp [fetchGo, hp, hr]⟩
      · by_cases h429 : status = 429
        · subst h429
          have hnn := wait429_nonneg cfg attempt ra body (by rw [← hp]; exact hgood attempt)
          obtain ⟨r, hr⟩ := ih (attempt + 1)
          exact ⟨r, by simp [fetchGo, hp, not_lt.mpr hnn, hr]⟩
        · exact ⟨some ⟨status, ra, body⟩, by simp [fetchGo, hp, h429]⟩

/-- The post-fetch dispatch always returns a result, never an error. -/
theorem weatherWithResp_ok (cfg : Config) (store : Store) (city : String)
    (cache : Option CacheDict) (resp : Option Response) :
    ∃ r, (weatherWithResp cfg store city cache resp).2.2 = .ok r := by
  unfold weatherWithResp
  rcases resp with _ | r
  · by_cases hc : cacheTruthy cache = true <;> simp [hc]
  · rcases hb : r.body with _ | p <;>
      simp only [hb] <;> split_ifs <;> exact ⟨_, rfl⟩

/-- Claim C1 (amended): for every city string and every behaviour of the
cache store and upstream provider, provided the API key is configured
(set and nonempty) and no 429 response carries a Retry-After header that
parses to a negative integer, the handler returns some outcome normally
and never raises; with the API key missing it raises RuntimeError, and a
parsed negative Retry-After raises ValueError from time.sleep
(app.py lines 107-146 and 154-245). -/
theorem c1_resolve_total (cfg : Config) (store : Store)
    (provider : Nat → AttemptResult) (formCity : String)
    (hkey : pyKeyTruthy cfg.apiKey = true)
    (hgood : ∀ i, attemptOk (provider i) = true) :
    ∃ r, (weather cfg store provider formCity).2.2 = .ok r := by
  obtain ⟨resp, hresp⟩ : ∃ resp,
      (fetch_weather_from_api cfg provider (pyStrip formCity)).2 = .ok resp := by
    unfold fetch_weather_from_api
    rw [if_pos hkey]
    exact fetchGo_no_error cfg provider hgood cfg.maxRetries 0
  obtain ⟨r2, hr2⟩ := weatherWithResp_ok cfg store (pyStrip formCity)
    (read_cache cfg store (pyStrip formCity)).2 resp
  by_cases hcity : pyStrip formCity = ""
  · exact ⟨.redirect "Please enter a city name." "warning", by simp [weather, hcity]⟩
  · by_cases hfresh : (cacheTruthy (read_cache cfg store (pyStrip formCity)).2 &&
        !((Option.map CacheDict.expiredTrue
            (read_cache cfg store (pyStrip formCity)).2).getD false)) = true
    · refine ⟨.page (cacheData (read_cache cfg store (pyStrip formCity)).2)
        (pyStrip formCity) "cache"
        (cacheTs (read_cache cfg store (pyStrip formCity)).2 cfg.now) none, ?_⟩
      simp only [weather]
      rw [if_neg hcity, if_pos hfresh]
    · refine ⟨r2, ?_⟩
      simp only [weather]
      rw [if_neg hcity, if_neg (by exact fun hc => hfresh hc)]
      rw [hresp]
      exact hr2

/-- Witness for C1 (amended) on a provider that answers 200 at once. -/
theorem c1_witness :
    ∃ r, (weather cfgT storeEmptyT (fun _ => .resp 200 none (some "PB"))
      "Paris").2.2 = .ok r :=
  c1_resolve_total cfgT storeEmptyT (fun _ => .resp 200 none (some "PB")) "Paris"
    (by decide) (fun _ => rfl)
